import Mathlib

/-!
Verification of the `BeamSegment` core of the PyNite repository
(`src/BeamSegment.py`) and of the node-support branch conditions of the
visualization layer (`src/PyNite/Visualization.py`).

The Python class stores real-valued attributes on an object.  We embed the
fully populated object as a structure of real numbers; note that the Python
evaluator methods read an attribute `self.L` that the constructor never
assigns, so the stored length `L` is a field of its own, distinct from the
difference `x2 - x1` that the extremum methods compute locally.  Python
float arithmetic is embedded as exact real arithmetic, and `d ** 0.5`
(reached only when `d ≥ 0`) as `Real.sqrt d`.
-/

open Set

noncomputable section

/-- The replacement `if x1 < 0 or x1 > L: x1 = 0` applied to a candidate
location in the extremum methods. -/
def clamp0 (L t : ℝ) : ℝ := if t < 0 ∨ t > L then 0 else t

/-- The candidate-root computation of `MaxMoment`/`MinMoment` on the
quadratic `a*x**2 + b*x + c`, following the branches of the source
(`(b**2-4*a*c)**0.5` is reached only when the discriminant is nonnegative
and is `Real.sqrt`). -/
def codeQuadCands (a b c : ℝ) : ℝ × ℝ :=
  if a = 0 then (if b ≠ 0 then (-c / b, 0) else (0, 0))
  else if b ^ 2 - 4 * a * c < 0 then (0, 0)
  else ((-b + Real.sqrt (b ^ 2 - 4 * a * c)) / (2 * a),
        (-b - Real.sqrt (b ^ 2 - 4 * a * c)) / (2 * a))

/-- The populated `BeamSegment` object: the twelve attributes assigned in
`__init__` plus the stored length attribute `L` that the evaluator methods
read (`self.L`). -/
structure BeamSegment where
  x1 : ℝ
  x2 : ℝ
  w1 : ℝ
  w2 : ℝ
  p1 : ℝ
  p2 : ℝ
  V1 : ℝ
  M1 : ℝ
  P1 : ℝ
  theta1 : ℝ
  delta1 : ℝ
  EI : ℝ
  L : ℝ

namespace BeamSegment

/-- Source `Length()`: returns `self.x2 - self.x1`. -/
def Length (s : BeamSegment) : ℝ := s.x2 - s.x1

/-- Source `Shear(x)`: `V1 - (w2-w1)/(2*L)*x**2 - w1*x`, reading the stored `self.L`. -/
def Shear (s : BeamSegment) (x : ℝ) : ℝ :=
  s.V1 - (s.w2 - s.w1) / (2 * s.L) * x ^ 2 - s.w1 * x

/-- Source `Moment(x)`: `M1 + V1*x - (w2-w1)/(6*L)*x**3 - w1*x**2/2`. -/
def Moment (s : BeamSegment) (x : ℝ) : ℝ :=
  s.M1 + s.V1 * x - (s.w2 - s.w1) / (6 * s.L) * x ^ 3 - s.w1 * x ^ 2 / 2

/-- Source `Axial(x)`: `P1 + (p2-p1)/(2*L)*x**2 + p1*x`. -/
def Axial (s : BeamSegment) (x : ℝ) : ℝ :=
  s.P1 + (s.p2 - s.p1) / (2 * s.L) * x ^ 2 + s.p1 * x

/-- Source `Slope(x, EI)`: `theta1 + 1/EI*(M1*x + V1/2*x**2 - (w2-w1)/(24*L)*x**4 - w1/6*x**3)`.
`EI` is a parameter of the method, as in the source. -/
def Slope (s : BeamSegment) (x EI : ℝ) : ℝ :=
  s.theta1 + 1 / EI *
    (s.M1 * x + s.V1 / 2 * x ^ 2 - (s.w2 - s.w1) / (24 * s.L) * x ^ 4 - s.w1 / 6 * x ^ 3)

/-- Source `Deflection(x, EI)`:
`delta1 + theta1*x + 1/EI*(M1/2*x**2 + V1/6*x**3 - (w2-w1)/(120*L)*x**5 - w1/24*x**4)`. -/
def Deflection (s : BeamSegment) (x EI : ℝ) : ℝ :=
  s.delta1 + s.theta1 * x + 1 / EI *
    (s.M1 / 2 * x ^ 2 + s.V1 / 6 * x ^ 3 - (s.w2 - s.w1) / (120 * s.L) * x ^ 5 -
      s.w1 / 24 * x ^ 4)

/-- Interior candidate of `MaxShear`/`MinShear`:
`if w1-w2 == 0: x1 = 0 else: x1 = w1*L/(w1-w2)` with `L = x2-x1`. -/
def shearCand (s : BeamSegment) : ℝ :=
  if s.w1 - s.w2 = 0 then 0 else s.w1 * (s.x2 - s.x1) / (s.w1 - s.w2)

/-- Interior candidate of `MaxAxial`/`MinAxial`:
`if p1-p2 != 0: x1 = L*p1/(p1-p2) else: x1 = 0` with `L = x2-x1`. -/
def axialCand (s : BeamSegment) : ℝ :=
  if s.p1 - s.p2 ≠ 0 then (s.x2 - s.x1) * s.p1 / (s.p1 - s.p2) else 0

/-- The two interior candidates of `MaxMoment`/`MinMoment` before clamping:
roots of `a*x**2 + b*x + c` with `a = (w1-w2)/(2*L)`, `b = -w1`, `c = V1`,
`L = x2-x1`. -/
def momentCands (s : BeamSegment) : ℝ × ℝ :=
  codeQuadCands ((s.w1 - s.w2) / (2 * (s.x2 - s.x1))) (-s.w1) s.V1

/-- Source `MaxShear()`: maximum of `Shear` over the clamped interior candidate and
the endpoints `0`, `L = x2-x1`. -/
def MaxShear (s : BeamSegment) : ℝ :=
  max (s.Shear (clamp0 (s.x2 - s.x1) (shearCand s)))
    (max (s.Shear 0) (s.Shear (s.x2 - s.x1)))

/-- Source `MinShear()`: minimum of `Shear` over the same three locations. -/
def MinShear (s : BeamSegment) : ℝ :=
  min (s.Shear (clamp0 (s.x2 - s.x1) (shearCand s)))
    (min (s.Shear 0) (s.Shear (s.x2 - s.x1)))

/-- Source `MaxMoment()`: maximum of `Moment` over the two clamped root candidates
and the endpoints `0`, `L = x2-x1`. -/
def MaxMoment (s : BeamSegment) : ℝ :=
  max (max (s.Moment (clamp0 (s.x2 - s.x1) (momentCands s).1))
        (s.Moment (clamp0 (s.x2 - s.x1) (momentCands s).2)))
    (max (s.Moment 0) (s.Moment (s.x2 - s.x1)))

/-- Source `MinMoment()`: minimum of `Moment` over the same four locations. -/
def MinMoment (s : BeamSegment) : ℝ :=
  min (min (s.Moment (clamp0 (s.x2 - s.x1) (momentCands s).1))
        (s.Moment (clamp0 (s.x2 - s.x1) (momentCands s).2)))
    (min (s.Moment 0) (s.Moment (s.x2 - s.x1)))

/-- Source `MaxAxial()`: maximum of `Axial` over the clamped interior candidate and
the endpoints. -/
def MaxAxial (s : BeamSegment) : ℝ :=
  max (s.Axial (clamp0 (s.x2 - s.x1) (axialCand s)))
    (max (s.Axial 0) (s.Axial (s.x2 - s.x1)))

/-- Source `MinAxial()`: minimum of `Axial` over the same three locations. -/
def MinAxial (s : BeamSegment) : ℝ :=
  min (s.Axial (clamp0 (s.x2 - s.x1) (axialCand s)))
    (min (s.Axial 0) (s.Axial (s.x2 - s.x1)))

end BeamSegment

/-! ### Closed forms as written in the specification (for the refinement
claims these are stated from the spec text, with `L = x2 - x1`). -/

/-- Spec formula: `Shear(x) = V1 - (w2-w1)/(2L)*x^2 - w1*x`. -/
def specShear (V1 w1 w2 L x : ℝ) : ℝ := V1 - (w2 - w1) / (2 * L) * x ^ 2 - w1 * x

/-- Spec formula: `Moment(x) = M1 + V1*x - (w2-w1)/(6L)*x^3 - w1/2*x^2`. -/
def specMoment (M1 V1 w1 w2 L x : ℝ) : ℝ :=
  M1 + V1 * x - (w2 - w1) / (6 * L) * x ^ 3 - w1 / 2 * x ^ 2

/-- Spec formula: `Axial(x) = P1 + (p2-p1)/(2L)*x^2 + p1*x`. -/
def specAxial (P1 p1 p2 L x : ℝ) : ℝ := P1 + (p2 - p1) / (2 * L) * x ^ 2 + p1 * x

/-- Spec formula: `Slope(x, EI) = theta1 + (1/EI)*(M1*x + V1/2*x^2 - (w2-w1)/(24L)*x^4 - w1/6*x^3)`. -/
def specSlope (theta1 M1 V1 w1 w2 L x EI : ℝ) : ℝ :=
  theta1 + 1 / EI * (M1 * x + V1 / 2 * x ^ 2 - (w2 - w1) / (24 * L) * x ^ 4 - w1 / 6 * x ^ 3)

/-- Spec formula: `Deflection(x, EI) = delta1 + theta1*x + (1/EI)*(M1/2*x^2 + V1/6*x^3 - (w2-w1)/(120L)*x^5 - w1/24*x^4)`. -/
def specDeflection (delta1 theta1 M1 V1 w1 w2 L x EI : ℝ) : ℝ :=
  delta1 + theta1 * x + 1 / EI *
    (M1 / 2 * x ^ 2 + V1 / 6 * x ^ 3 - (w2 - w1) / (120 * L) * x ^ 5 - w1 / 24 * x ^ 4)

/-! ### Extremum candidate computations as the specification describes them
(stated from the spec text, to be compared with the source versions). -/

/-- Spec description of the moment stationary-point candidates: if `a = 0`
and `b ≠ 0` the single root is `-c/b` and the other candidate is `0`; if
`a = 0` and `b = 0` both candidates are `0`; if the discriminant is negative
both candidates are `0`; otherwise the two quadratic-formula roots. -/
def specQuadCands (a b c : ℝ) : ℝ × ℝ :=
  if a = 0 ∧ b ≠ 0 then (-c / b, 0)
  else if a = 0 ∧ b = 0 then (0, 0)
  else if b ^ 2 - 4 * a * c < 0 then (0, 0)
  else ((-b + Real.sqrt (b ^ 2 - 4 * a * c)) / (2 * a),
        (-b - Real.sqrt (b ^ 2 - 4 * a * c)) / (2 * a))

/-- Spec description of `MaxMoment`: candidates from the quadratic
`a*x^2 + b*x + c` with `a = (w1-w2)/(2L)`, `b = -w1`, `c = V1`; any
candidate outside `[0, L]` replaced by `0`; result is the max of `Moment`
at the two candidates, `0` and `L`. -/
def specMaxMoment (s : BeamSegment) : ℝ :=
  max (max (s.Moment (clamp0 (s.x2 - s.x1)
        (specQuadCands ((s.w1 - s.w2) / (2 * (s.x2 - s.x1))) (-s.w1) s.V1).1))
      (s.Moment (clamp0 (s.x2 - s.x1)
        (specQuadCands ((s.w1 - s.w2) / (2 * (s.x2 - s.x1))) (-s.w1) s.V1).2)))
    (max (s.Moment 0) (s.Moment (s.x2 - s.x1)))

/-- Spec description of `MinMoment`. -/
def specMinMoment (s : BeamSegment) : ℝ :=
  min (min (s.Moment (clamp0 (s.x2 - s.x1)
        (specQuadCands ((s.w1 - s.w2) / (2 * (s.x2 - s.x1))) (-s.w1) s.V1).1))
      (s.Moment (clamp0 (s.x2 - s.x1)
        (specQuadCands ((s.w1 - s.w2) / (2 * (s.x2 - s.x1))) (-s.w1) s.V1).2)))
    (min (s.Moment 0) (s.Moment (s.x2 - s.x1)))

/-- Spec description of the shear interior candidate: `w1*L/(w1-w2)` exactly
when `w1 ≠ w2`, replaced by `0` when `w1 = w2`. -/
def specShearCand (s : BeamSegment) : ℝ :=
  if s.w1 ≠ s.w2 then s.w1 * (s.x2 - s.x1) / (s.w1 - s.w2) else 0

/-- Spec description of the axial interior candidate: `L*p1/(p1-p2)` exactly
when `p1 ≠ p2`, replaced by `0` when `p1 = p2`. -/
def specAxialCand (s : BeamSegment) : ℝ :=
  if s.p1 ≠ s.p2 then (s.x2 - s.x1) * s.p1 / (s.p1 - s.p2) else 0

/-- Spec description of `MaxShear`: max of `Shear` at the (clamped) interior
candidate, `0` and `L`. -/
def specMaxShear (s : BeamSegment) : ℝ :=
  max (s.Shear (clamp0 (s.x2 - s.x1) (specShearCand s)))
    (max (s.Shear 0) (s.Shear (s.x2 - s.x1)))

/-- Spec description of `MinShear`. -/
def specMinShear (s : BeamSegment) : ℝ :=
  min (s.Shear (clamp0 (s.x2 - s.x1) (specShearCand s)))
    (min (s.Shear 0) (s.Shear (s.x2 - s.x1)))

/-- Spec description of `MaxAxial`. -/
def specMaxAxial (s : BeamSegment) : ℝ :=
  max (s.Axial (clamp0 (s.x2 - s.x1) (specAxialCand s)))
    (max (s.Axial 0) (s.Axial (s.x2 - s.x1)))

/-- Spec description of `MinAxial`. -/
def specMinAxial (s : BeamSegment) : ℝ :=
  min (s.Axial (clamp0 (s.x2 - s.x1) (specAxialCand s)))
    (min (s.Axial 0) (s.Axial (s.x2 - s.x1)))

/-! ### Checked arithmetic: Python raises `ZeroDivisionError` on division by
zero, and `d ** 0.5` leaves the reals when `d < 0`.  The checked variants
make every dynamic failure point of the source explicit. -/

/-- Division as Python performs it: fails (raises) when the divisor is zero. -/
def cdiv (a b : ℝ) : Option ℝ := if b = 0 then none else some (a / b)

/-- Source `d ** 0.5` as a real computation: fails when `d < 0` (Python would
return a complex number). -/
def csqrt (d : ℝ) : Option ℝ := if d < 0 then none else some (Real.sqrt d)

namespace BeamSegment

/-- Source `Shear(x)` with its division checked. -/
def ShearChk (s : BeamSegment) (x : ℝ) : Option ℝ := do
  let q ← cdiv (s.w2 - s.w1) (2 * s.L)
  some (s.V1 - q * x ^ 2 - s.w1 * x)

/-- Source `Moment(x)` with its division checked. -/
def MomentChk (s : BeamSegment) (x : ℝ) : Option ℝ := do
  let q ← cdiv (s.w2 - s.w1) (6 * s.L)
  some (s.M1 + s.V1 * x - q * x ^ 3 - s.w1 * x ^ 2 / 2)

/-- Source `Axial(x)` with its division checked. -/
def AxialChk (s : BeamSegment) (x : ℝ) : Option ℝ := do
  let q ← cdiv (s.p2 - s.p1) (2 * s.L)
  some (s.P1 + q * x ^ 2 + s.p1 * x)

/-- Source `Slope(x, EI)` with its divisions checked: `1/EI` and `(w2-w1)/(24*L)`. -/
def SlopeChk (s : BeamSegment) (x EI : ℝ) : Option ℝ := do
  let iEI ← cdiv 1 EI
  let q ← cdiv (s.w2 - s.w1) (24 * s.L)
  some (s.theta1 + iEI * (s.M1 * x + s.V1 / 2 * x ^ 2 - q * x ^ 4 - s.w1 / 6 * x ^ 3))

/-- Source `Deflection(x, EI)` with its divisions checked. -/
def DeflectionChk (s : BeamSegment) (x EI : ℝ) : Option ℝ := do
  let iEI ← cdiv 1 EI
  let q ← cdiv (s.w2 - s.w1) (120 * s.L)
  some (s.delta1 + s.theta1 * x + iEI *
    (s.M1 / 2 * x ^ 2 + s.V1 / 6 * x ^ 3 - q * x ^ 5 - s.w1 / 24 * x ^ 4))

/-- The interior candidate of `MaxShear`/`MinShear` with its division
checked: the division by `w1 - w2` happens only in the branch where that
difference is nonzero. -/
def shearCandChk (s : BeamSegment) : Option ℝ :=
  if s.w1 - s.w2 = 0 then some 0
  else cdiv (s.w1 * (s.x2 - s.x1)) (s.w1 - s.w2)

/-- The interior candidate of `MaxAxial`/`MinAxial` with its division
checked. -/
def axialCandChk (s : BeamSegment) : Option ℝ :=
  if s.p1 - s.p2 ≠ 0 then cdiv ((s.x2 - s.x1) * s.p1) (s.p1 - s.p2)
  else some 0

/-- The two moment candidates with every division and the square root
checked, following the branch structure of the source. -/
def momentCandsChk (s : BeamSegment) : Option (ℝ × ℝ) := do
  let a ← cdiv (s.w1 - s.w2) (2 * (s.x2 - s.x1))
  let b := -s.w1
  let c := s.V1
  if a = 0 then
    if b ≠ 0 then do
      let r ← cdiv (-c) b
      some (r, 0)
    else some (0, 0)
  else if b ^ 2 - 4 * a * c < 0 then some (0, 0)
  else do
    let sq ← csqrt (b ^ 2 - 4 * a * c)
    let r1 ← cdiv (-b + sq) (2 * a)
    let r2 ← cdiv (-b - sq) (2 * a)
    some (r1, r2)

/-- Source `MaxShear()` with every dynamic failure point checked. -/
def MaxShearChk (s : BeamSegment) : Option ℝ := do
  let xc ← shearCandChk s
  let v1 ← s.ShearChk (clamp0 (s.x2 - s.x1) xc)
  let v2 ← s.ShearChk 0
  let v3 ← s.ShearChk (s.x2 - s.x1)
  some (max v1 (max v2 v3))

/-- Source `MinShear()` with every dynamic failure point checked. -/
def MinShearChk (s : BeamSegment) : Option ℝ := do
  let xc ← shearCandChk s
  let v1 ← s.ShearChk (clamp0 (s.x2 - s.x1) xc)
  let v2 ← s.ShearChk 0
  let v3 ← s.ShearChk (s.x2 - s.x1)
  some (min v1 (min v2 v3))

/-- Source `MaxMoment()` with every dynamic failure point checked. -/
def MaxMomentChk (s : BeamSegment) : Option ℝ := do
  let p ← momentCandsChk s
  let m1 ← s.MomentChk (clamp0 (s.x2 - s.x1) p.1)
  let m2 ← s.MomentChk (clamp0 (s.x2 - s.x1) p.2)
  let m3 ← s.MomentChk 0
  let m4 ← s.MomentChk (s.x2 - s.x1)
  some (max (max m1 m2) (max m3 m4))

/-- Source `MinMoment()` with every dynamic failure point checked. -/
def MinMomentChk (s : BeamSegment) : Option ℝ := do
  let p ← momentCandsChk s
  let m1 ← s.MomentChk (clamp0 (s.x2 - s.x1) p.1)
  let m2 ← s.MomentChk (clamp0 (s.x2 - s.x1) p.2)
  let m3 ← s.MomentChk 0
  let m4 ← s.MomentChk (s.x2 - s.x1)
  some (min (min m1 m2) (min m3 m4))

/-- Source `MaxAxial()` with every dynamic failure point checked. -/
def MaxAxialChk (s : BeamSegment) : Option ℝ := do
  let xc ← axialCandChk s
  let v1 ← s.AxialChk (clamp0 (s.x2 - s.x1) xc)
  let v2 ← s.AxialChk 0
  let v3 ← s.AxialChk (s.x2 - s.x1)
  some (max v1 (max v2 v3))

/-- Source `MinAxial()` with every dynamic failure point checked. -/
def MinAxialChk (s : BeamSegment) : Option ℝ := do
  let xc ← axialCandChk s
  let v1 ← s.AxialChk (clamp0 (s.x2 - s.x1) xc)
  let v2 ← s.AxialChk 0
  let v3 ← s.AxialChk (s.x2 - s.x1)
  some (min v1 (min v2 v3))

end BeamSegment

/-! ### The attribute store of the Python object.  `__init__` assigns the
twelve documented attributes (to `None` placeholders that the trusted
external builder then overwrites with numbers) and never assigns `self.L`;
reading a never-assigned attribute raises `AttributeError`.  `none` models
an attribute that was never assigned. -/

/-- The attribute store of a `BeamSegment` instance: each slot is `some v`
when the attribute holds the number `v` and `none` when it was never
assigned. -/
structure SegAttrs where
  x1 : Option ℝ
  x2 : Option ℝ
  w1 : Option ℝ
  w2 : Option ℝ
  p1 : Option ℝ
  p2 : Option ℝ
  V1 : Option ℝ
  M1 : Option ℝ
  P1 : Option ℝ
  theta1 : Option ℝ
  delta1 : Option ℝ
  EI : Option ℝ
  L : Option ℝ

/-- Source `__init__` followed by the external builder storing the given numbers in
the twelve documented attributes.  No other attribute is ever assigned; in
particular the length attribute `L` read by the evaluator methods stays
unassigned. -/
def buildSegment (x1v x2v w1v w2v p1v p2v V1v M1v P1v theta1v delta1v EIv : ℝ) :
    SegAttrs :=
  { x1 := some x1v, x2 := some x2v, w1 := some w1v, w2 := some w2v,
    p1 := some p1v, p2 := some p2v, V1 := some V1v, M1 := some M1v,
    P1 := some P1v, theta1 := some theta1v, delta1 := some delta1v,
    EI := some EIv, L := none }

/-- Source `Length()` reading the attribute store: `self.x2 - self.x1`. -/
def attrLength (A : SegAttrs) : Option ℝ := do
  let b ← A.x2
  let a ← A.x1
  some (b - a)

/-- Source `Shear(x)` reading the attribute store (reads `V1`, `w1`, `w2`, `L`). -/
def attrShear (A : SegAttrs) (x : ℝ) : Option ℝ := do
  let V1 ← A.V1
  let w1 ← A.w1
  let w2 ← A.w2
  let L ← A.L
  some (V1 - (w2 - w1) / (2 * L) * x ^ 2 - w1 * x)

/-- Source `Moment(x)` reading the attribute store. -/
def attrMoment (A : SegAttrs) (x : ℝ) : Option ℝ := do
  let V1 ← A.V1
  let M1 ← A.M1
  let w1 ← A.w1
  let w2 ← A.w2
  let L ← A.L
  some (M1 + V1 * x - (w2 - w1) / (6 * L) * x ^ 3 - w1 * x ^ 2 / 2)

/-- Source `Axial(x)` reading the attribute store. -/
def attrAxial (A : SegAttrs) (x : ℝ) : Option ℝ := do
  let P1 ← A.P1
  let p1 ← A.p1
  let p2 ← A.p2
  let L ← A.L
  some (P1 + (p2 - p1) / (2 * L) * x ^ 2 + p1 * x)

/-- Source `Slope(x, EI)` reading the attribute store. -/
def attrSlope (A : SegAttrs) (x EI : ℝ) : Option ℝ := do
  let V1 ← A.V1
  let M1 ← A.M1
  let w1 ← A.w1
  let w2 ← A.w2
  let theta1 ← A.theta1
  let L ← A.L
  some (theta1 + 1 / EI * (M1 * x + V1 / 2 * x ^ 2 - (w2 - w1) / (24 * L) * x ^ 4 -
    w1 / 6 * x ^ 3))

/-- Source `Deflection(x, EI)` reading the attribute store. -/
def attrDeflection (A : SegAttrs) (x EI : ℝ) : Option ℝ := do
  let V1 ← A.V1
  let M1 ← A.M1
  let w1 ← A.w1
  let w2 ← A.w2
  let theta1 ← A.theta1
  let delta1 ← A.delta1
  let L ← A.L
  some (delta1 + theta1 * x + 1 / EI * (M1 / 2 * x ^ 2 + V1 / 6 * x ^ 3 -
    (w2 - w1) / (120 * L) * x ^ 5 - w1 / 24 * x ^ 4))

/-- Source `MaxShear()` reading the attribute store: computes its own `L = x2 - x1`
and calls `self.Shear`. -/
def attrMaxShear (A : SegAttrs) : Option ℝ := do
  let w1 ← A.w1
  let w2 ← A.w2
  let b ← A.x2
  let a ← A.x1
  let L := b - a
  let xc := if w1 - w2 = 0 then (0 : ℝ) else w1 * L / (w1 - w2)
  let v1 ← attrShear A (clamp0 L xc)
  let v2 ← attrShear A 0
  let v3 ← attrShear A L
  some (max v1 (max v2 v3))

/-- Source `MinShear()` reading the attribute store. -/
def attrMinShear (A : SegAttrs) : Option ℝ := do
  let w1 ← A.w1
  let w2 ← A.w2
  let b ← A.x2
  let a ← A.x1
  let L := b - a
  let xc := if w1 - w2 = 0 then (0 : ℝ) else w1 * L / (w1 - w2)
  let v1 ← attrShear A (clamp0 L xc)
  let v2 ← attrShear A 0
  let v3 ← attrShear A L
  some (min v1 (min v2 v3))

/-- Source `MaxMoment()` reading the attribute store. -/
def attrMaxMoment (A : SegAttrs) : Option ℝ := do
  let w1 ← A.w1
  let w2 ← A.w2
  let V1 ← A.V1
  let b ← A.x2
  let a ← A.x1
  let L := b - a
  let p := codeQuadCands ((w1 - w2) / (2 * L)) (-w1) V1
  let m1 ← attrMoment A (clamp0 L p.1)
  let m2 ← attrMoment A (clamp0 L p.2)
  let m3 ← attrMoment A 0
  let m4 ← attrMoment A L
  some (max (max m1 m2) (max m3 m4))

/-- Source `MinMoment()` reading the attribute store. -/
def attrMinMoment (A : SegAttrs) : Option ℝ := do
  let w1 ← A.w1
  let w2 ← A.w2
  let V1 ← A.V1
  let b ← A.x2
  let a ← A.x1
  let L := b - a
  let p := codeQuadCands ((w1 - w2) / (2 * L)) (-w1) V1
  let m1 ← attrMoment A (clamp0 L p.1)
  let m2 ← attrMoment A (clamp0 L p.2)
  let m3 ← attrMoment A 0
  let m4 ← attrMoment A L
  some (min (min m1 m2) (min m3 m4))

/-- Source `MaxAxial()` reading the attribute store. -/
def attrMaxAxial (A : SegAttrs) : Option ℝ := do
  let p1 ← A.p1
  let p2 ← A.p2
  let b ← A.x2
  let a ← A.x1
  let L := b - a
  let xc := if p1 - p2 ≠ 0 then L * p1 / (p1 - p2) else (0 : ℝ)
  let v1 ← attrAxial A (clamp0 L xc)
  let v2 ← attrAxial A 0
  let v3 ← attrAxial A L
  some (max v1 (max v2 v3))

/-- Source `MinAxial()` reading the attribute store. -/
def attrMinAxial (A : SegAttrs) : Option ℝ := do
  let p1 ← A.p1
  let p2 ← A.p2
  let b ← A.x2
  let a ← A.x1
  let L := b - a
  let xc := if p1 - p2 ≠ 0 then L * p1 / (p1 - p2) else (0 : ℝ)
  let v1 ← attrAxial A (clamp0 L xc)
  let v2 ← attrAxial A 0
  let v3 ← attrAxial A L
  some (min v1 (min v2 v3))

/-! ### Visualization layer: node support branch conditions
(`src/PyNite/Visualization.py`, `VisNode.__init__`). -/

/-- The six support flags of a node, as read by the visualization code. -/
structure VisNodeFlags where
  SupportDX : Bool
  SupportDY : Bool
  SupportDZ : Bool
  SupportRX : Bool
  SupportRY : Bool
  SupportRZ : Bool

/-- The condition of the fixed-support `if` branch (lines 555-556): all six
flags equal `True`. -/
def fixedSupportCond (n : VisNodeFlags) : Bool :=
  n.SupportDX && n.SupportDY && n.SupportDZ && n.SupportRX && n.SupportRY && n.SupportRZ

/-- The condition of the pinned-support `elif` branch (lines 572-573),
transcribed from the source: it also checks all six flags equal `True`. -/
def pinnedSupportCond (n : VisNodeFlags) : Bool :=
  n.SupportDX && n.SupportDY && n.SupportDZ && n.SupportRX && n.SupportRY && n.SupportRZ

/-- Which support glyph the `if`/`elif`/`else` chain draws. -/
inductive SupportKind where
  | fixed : SupportKind
  | pinned : SupportKind
  | other : SupportKind
deriving DecidableEq

/-- The branch selection of `VisNode.__init__`: `if` fixed, `elif` pinned,
`else` other. -/
def supportBranch (n : VisNodeFlags) : SupportKind :=
  if fixedSupportCond n then SupportKind.fixed
  else if pinnedSupportCond n then SupportKind.pinned
  else SupportKind.other

end

/-! ### Claims: theorems. -/

/-- C2: for every segment whose stored length field equals `x2 - x1 > 0`
(and any `EI ≠ 0` for the last two), the five evaluators return exactly the
closed forms of the specification with `L = x2 - x1`. -/
theorem C2_closed_forms (s : BeamSegment) (hL : s.L = s.x2 - s.x1)
    (hpos : 0 < s.x2 - s.x1) :
    ∀ x : ℝ,
      s.Shear x = specShear s.V1 s.w1 s.w2 (s.x2 - s.x1) x ∧
      s.Moment x = specMoment s.M1 s.V1 s.w1 s.w2 (s.x2 - s.x1) x ∧
      s.Axial x = specAxial s.P1 s.p1 s.p2 (s.x2 - s.x1) x ∧
      (∀ EI : ℝ, EI ≠ 0 →
        s.Slope x EI = specSlope s.theta1 s.M1 s.V1 s.w1 s.w2 (s.x2 - s.x1) x EI ∧
        s.Deflection x EI =
          specDeflection s.delta1 s.theta1 s.M1 s.V1 s.w1 s.w2 (s.x2 - s.x1) x EI) := by
  intro x
  refine ⟨?_, ?_, ?_, ?_⟩
  · simp [BeamSegment.Shear, specShear, hL]
  · simp only [BeamSegment.Moment, specMoment, hL]; ring
  · simp [BeamSegment.Axial, specAxial, hL]
  · intro EI hEI
    constructor
    · simp [BeamSegment.Slope, specSlope, hL]
    · simp [BeamSegment.Deflection, specDeflection, hL]

/-- Witness for C2 at a concrete segment and position. -/
theorem C2_closed_forms_witness :
    let s : BeamSegment :=
      { x1 := 0, x2 := 1, w1 := 2, w2 := 3, p1 := 0, p2 := 0, V1 := 5, M1 := 7,
        P1 := 0, theta1 := 0, delta1 := 0, EI := 1, L := 1 }
    s.Shear 3 = specShear s.V1 s.w1 s.w2 (s.x2 - s.x1) 3 ∧
    s.Moment 3 = specMoment s.M1 s.V1 s.w1 s.w2 (s.x2 - s.x1) 3 ∧
    s.Axial 3 = specAxial s.P1 s.p1 s.p2 (s.x2 - s.x1) 3 ∧
    (∀ EI : ℝ, EI ≠ 0 →
      s.Slope 3 EI = specSlope s.theta1 s.M1 s.V1 s.w1 s.w2 (s.x2 - s.x1) 3 EI ∧
      s.Deflection 3 EI =
        specDeflection s.delta1 s.theta1 s.M1 s.V1 s.w1 s.w2 (s.x2 - s.x1) 3 EI) :=
  C2_closed_forms
    { x1 := 0, x2 := 1, w1 := 2, w2 := 3, p1 := 0, p2 := 0, V1 := 5, M1 := 7,
      P1 := 0, theta1 := 0, delta1 := 0, EI := 1, L := 1 }
    (by norm_num) (by norm_num) 3

/-- The source branch structure of the quadratic candidates coincides with
the spec branch description. -/
theorem codeQuadCands_eq_spec (a b c : ℝ) : codeQuadCands a b c = specQuadCands a b c := by
  unfold codeQuadCands specQuadCands
  by_cases ha : a = 0
  · by_cases hb : b = 0
    · simp [ha, hb]
    · simp [ha, hb]
  · simp [ha]

/-- C4: `MaxMoment` and `MinMoment` locate stationary points and combine
candidates exactly as the spec describes. -/
theorem C4_moment_extrema_branches (s : BeamSegment) :
    s.MaxMoment = specMaxMoment s ∧ s.MinMoment = specMinMoment s := by
  unfold BeamSegment.MaxMoment BeamSegment.MinMoment specMaxMoment specMinMoment
    BeamSegment.momentCands
  rw [codeQuadCands_eq_spec]
  exact ⟨rfl, rfl⟩

/-- C5: `MaxShear`, `MinShear`, `MaxAxial` and `MinAxial` use exactly the
interior candidates, fallbacks and candidate sets the spec describes. -/
theorem C5_shear_axial_extrema_branches (s : BeamSegment) :
    s.MaxShear = specMaxShear s ∧ s.MinShear = specMinShear s ∧
    s.MaxAxial = specMaxAxial s ∧ s.MinAxial = specMinAxial s := by
  have hs : BeamSegment.shearCand s = specShearCand s := by
    unfold BeamSegment.shearCand specShearCand
    by_cases h : s.w1 - s.w2 = 0
    · simp [h, sub_eq_zero.mp h]
    · simp [h, sub_ne_zero.mp h]
  have ha : BeamSegment.axialCand s = specAxialCand s := by
    unfold BeamSegment.axialCand specAxialCand
    by_cases h : s.p1 - s.p2 = 0
    · simp [h, sub_eq_zero.mp h]
    · simp [h, sub_ne_zero.mp h]
  unfold BeamSegment.MaxShear BeamSegment.MinShear BeamSegment.MaxAxial
    BeamSegment.MinAxial specMaxShear specMinShear specMaxAxial specMinAxial
  rw [hs, ha]
  exact ⟨rfl, rfl, rfl, rfl⟩

/-- C6 counterexample: the constructor takes no geometry and performs no
validation, so a segment with `x2 = 3 ≤ 5 = x1` (negative length) is
constructed and populated without any failure, and `Length()` even returns
`-2`; the claimed rejection does not happen. -/
theorem C6_counterexample :
    (3 : ℝ) ≤ 5 ∧
    (buildSegment 5 3 1 1 1 1 1 1 1 1 1 1).x1 = some 5 ∧
    (buildSegment 5 3 1 1 1 1 1 1 1 1 1 1).x2 = some 3 ∧
    attrLength (buildSegment 5 3 1 1 1 1 1 1 1 1 1 1) = some (-2) := by
  refine ⟨by norm_num, rfl, rfl, ?_⟩
  show some ((3 : ℝ) - 5) = some (-2)
  norm_num

/-- C6 amended: construction never validates geometry.  For every choice of
the twelve attribute values — in particular whenever `x2 ≤ x1` — the
constructor-plus-builder succeeds, stores exactly the given start and end
positions, and leaves `L` unassigned; no rejection ever occurs. -/
theorem C6_no_geometry_validation
    (x1v x2v w1v w2v p1v p2v V1v M1v P1v theta1v delta1v EIv : ℝ) :
    (buildSegment x1v x2v w1v w2v p1v p2v V1v M1v P1v theta1v delta1v EIv).x1 =
        some x1v ∧
    (buildSegment x1v x2v w1v w2v p1v p2v V1v M1v P1v theta1v delta1v EIv).x2 =
        some x2v ∧
    (buildSegment x1v x2v w1v w2v p1v p2v V1v M1v P1v theta1v delta1v EIv).L = none ∧
    attrLength (buildSegment x1v x2v w1v w2v p1v p2v V1v M1v P1v theta1v delta1v EIv) =
        some (x2v - x1v) :=
  ⟨rfl, rfl, rfl, rfl⟩

/-- C8: a segment populated only through the documented constructor
attributes has no `L` attribute, so all five evaluators and all six
extremum queries fail (`AttributeError` on `self.L`), while `Length()`
succeeds and returns `x2 - x1`. -/
theorem C8_missing_length_field
    (x1v x2v w1v w2v p1v p2v V1v M1v P1v theta1v delta1v EIv x EIq : ℝ) :
    attrShear (buildSegment x1v x2v w1v w2v p1v p2v V1v M1v P1v theta1v delta1v EIv) x =
        none ∧
    attrMoment (buildSegment x1v x2v w1v w2v p1v p2v V1v M1v P1v theta1v delta1v EIv) x =
        none ∧
    attrAxial (buildSegment x1v x2v w1v w2v p1v p2v V1v M1v P1v theta1v delta1v EIv) x =
        none ∧
    attrSlope (buildSegment x1v x2v w1v w2v p1v p2v V1v M1v P1v theta1v delta1v EIv)
        x EIq = none ∧
    attrDeflection (buildSegment x1v x2v w1v w2v p1v p2v V1v M1v P1v theta1v delta1v EIv)
        x EIq = none ∧
    attrMaxShear (buildSegment x1v x2v w1v w2v p1v p2v V1v M1v P1v theta1v delta1v EIv) =
        none ∧
    attrMinShear (buildSegment x1v x2v w1v w2v p1v p2v V1v M1v P1v theta1v delta1v EIv) =
        none ∧
    attrMaxMoment (buildSegment x1v x2v w1v w2v p1v p2v V1v M1v P1v theta1v delta1v EIv) =
        none ∧
    attrMinMoment (buildSegment x1v x2v w1v w2v p1v p2v V1v M1v P1v theta1v delta1v EIv) =
        none ∧
    attrMaxAxial (buildSegment x1v x2v w1v w2v p1v p2v V1v M1v P1v theta1v delta1v EIv) =
        none ∧
    attrMinAxial (buildSegment x1v x2v w1v w2v p1v p2v V1v M1v P1v theta1v delta1v EIv) =
        none ∧
    attrLength (buildSegment x1v x2v w1v w2v p1v p2v V1v M1v P1v theta1v delta1v EIv) =
        some (x2v - x1v) :=
  ⟨rfl, rfl, rfl, rfl, rfl, rfl, rfl, rfl, rfl, rfl, rfl, rfl⟩

/-- C7 counterexample: with a fully consistent segment and `EI = -1 ≤ 0`,
`Slope` and `Deflection` succeed (returning numbers) instead of failing; no
`InvalidStiffness` check exists in the code. -/
theorem C7_counterexample :
    (-1 : ℝ) ≤ 0 ∧
    BeamSegment.SlopeChk
      { x1 := 0, x2 := 1, w1 := 0, w2 := 0, p1 := 0, p2 := 0, V1 := 0, M1 := 0,
        P1 := 0, theta1 := 0, delta1 := 0, EI := 1, L := 1 } 0 (-1) = some 0 ∧
    BeamSegment.DeflectionChk
      { x1 := 0, x2 := 1, w1 := 0, w2 := 0, p1 := 0, p2 := 0, V1 := 0, M1 := 0,
        P1 := 0, theta1 := 0, delta1 := 0, EI := 1, L := 1 } 0 (-1) = some 0 := by
  refine ⟨by norm_num, ?_, ?_⟩ <;>
    simp [BeamSegment.SlopeChk, BeamSegment.DeflectionChk, cdiv]

/-- C7 amended: for a segment with a nonzero stored length field, `Slope`
and `Deflection` fail exactly when `EI = 0` (a `ZeroDivisionError`, not an
`InvalidStiffness` error), and for every `EI ≠ 0` — including negative
stiffness — both succeed and return the closed-form value. -/
theorem C7_zero_division_only (s : BeamSegment) (hLne : s.L ≠ 0) (x EI : ℝ) :
    (s.SlopeChk x EI = none ↔ EI = 0) ∧
    (s.DeflectionChk x EI = none ↔ EI = 0) ∧
    (EI ≠ 0 → s.SlopeChk x EI = some (s.Slope x EI) ∧
      s.DeflectionChk x EI = some (s.Deflection x EI)) := by
  have h24 : (24 : ℝ) * s.L ≠ 0 := by
    intro h; exact hLne (by linarith [mul_eq_zero.mp h |>.resolve_left (by norm_num)])
  have h120 : (120 : ℝ) * s.L ≠ 0 := by
    intro h; exact hLne (by linarith [mul_eq_zero.mp h |>.resolve_left (by norm_num)])
  refine ⟨?_, ?_, ?_⟩
  · constructor
    · intro h
      by_contra hEI
      simp [BeamSegment.SlopeChk, cdiv, hEI, h24] at h
    · intro h
      simp [BeamSegment.SlopeChk, cdiv, h]
  · constructor
    · intro h
      by_contra hEI
      simp [BeamSegment.DeflectionChk, cdiv, hEI, h120] at h
    · intro h
      simp [BeamSegment.DeflectionChk, cdiv, h]
  · intro hEI
    constructor
    · simp [BeamSegment.SlopeChk, cdiv, hEI, h24, BeamSegment.Slope, one_div]
    · simp [BeamSegment.DeflectionChk, cdiv, hEI, h120, BeamSegment.Deflection, one_div]

/-- Witness for the amended C7 at a concrete segment and input. -/
theorem C7_zero_division_only_witness :
    let s : BeamSegment :=
      { x1 := 0, x2 := 1, w1 := 0, w2 := 0, p1 := 0, p2 := 0, V1 := 0, M1 := 0,
        P1 := 0, theta1 := 0, delta1 := 0, EI := 1, L := 1 }
    (s.SlopeChk 0 2 = none ↔ (2 : ℝ) = 0) ∧
    (s.DeflectionChk 0 2 = none ↔ (2 : ℝ) = 0) ∧
    ((2 : ℝ) ≠ 0 → s.SlopeChk 0 2 = some (s.Slope 0 2) ∧
      s.DeflectionChk 0 2 = some (s.Deflection 0 2)) :=
  C7_zero_division_only
    { x1 := 0, x2 := 1, w1 := 0, w2 := 0, p1 := 0, p2 := 0, V1 := 0, M1 := 0,
      P1 := 0, theta1 := 0, delta1 := 0, EI := 1, L := 1 }
    (by norm_num) 0 2

/-- C10: the pinned-support condition is the same predicate over the six
flags as the fixed-support condition, so the pinned `elif` branch is
unreachable for every assignment of the flags. -/
theorem C10_pinned_unreachable :
    (∀ n : VisNodeFlags, pinnedSupportCond n = fixedSupportCond n) ∧
    (∀ n : VisNodeFlags, supportBranch n ≠ SupportKind.pinned) := by
  constructor
  · intro n; rfl
  · intro n
    unfold supportBranch
    by_cases h : fixedSupportCond n = true
    · simp [h]
    · have h2 : pinnedSupportCond n = fixedSupportCond n := rfl
      simp [h, h2]


/-! ### Derivatives of the closed-form evaluators. -/

/-- Derivative of `Shear` at every point. -/
theorem hasDerivAt_Shear (s : BeamSegment) (x : ℝ) :
    HasDerivAt (s.Shear) (-((s.w2 - s.w1) / (2 * s.L)) * (2 * x) - s.w1) x := by
  have h1 : HasDerivAt (fun y : ℝ => (s.w2 - s.w1) / (2 * s.L) * y ^ 2)
      ((s.w2 - s.w1) / (2 * s.L) * (2 * x)) x := by
    simpa using (hasDerivAt_pow 2 x).const_mul ((s.w2 - s.w1) / (2 * s.L))
  have h2 : HasDerivAt (fun y : ℝ => s.w1 * y) s.w1 x := by
    simpa using (hasDerivAt_id x).const_mul s.w1
  have h3 := ((hasDerivAt_const x s.V1).sub h1).sub h2
  convert h3 using 1
  ring

/-- Derivative of `Moment` at every point. -/
theorem hasDerivAt_Moment (s : BeamSegment) (x : ℝ) :
    HasDerivAt (s.Moment)
      (s.V1 - (s.w2 - s.w1) / (6 * s.L) * (3 * x ^ 2) - s.w1 * (2 * x) / 2) x := by
  have h1 : HasDerivAt (fun y : ℝ => s.V1 * y) s.V1 x := by
    simpa using (hasDerivAt_id x).const_mul s.V1
  have h2 : HasDerivAt (fun y : ℝ => (s.w2 - s.w1) / (6 * s.L) * y ^ 3)
      ((s.w2 - s.w1) / (6 * s.L) * (3 * x ^ 2)) x := by
    simpa using (hasDerivAt_pow 3 x).const_mul ((s.w2 - s.w1) / (6 * s.L))
  have h3 : HasDerivAt (fun y : ℝ => s.w1 * y ^ 2 / 2) (s.w1 * (2 * x) / 2) x := by
    simpa using ((hasDerivAt_pow 2 x).const_mul s.w1).div_const 2
  have h4 := (((hasDerivAt_const x s.M1).add h1).sub h2).sub h3
  convert h4 using 1
  ring

/-- Derivative of `Axial` at every point. -/
theorem hasDerivAt_Axial (s : BeamSegment) (x : ℝ) :
    HasDerivAt (s.Axial) ((s.p2 - s.p1) / (2 * s.L) * (2 * x) + s.p1) x := by
  have h1 : HasDerivAt (fun y : ℝ => (s.p2 - s.p1) / (2 * s.L) * y ^ 2)
      ((s.p2 - s.p1) / (2 * s.L) * (2 * x)) x := by
    simpa using (hasDerivAt_pow 2 x).const_mul ((s.p2 - s.p1) / (2 * s.L))
  have h2 : HasDerivAt (fun y : ℝ => s.p1 * y) s.p1 x := by
    simpa using (hasDerivAt_id x).const_mul s.p1
  have h3 := ((hasDerivAt_const x s.P1).add h1).add h2
  convert h3 using 1
  ring

/-- Derivative of `Slope` in `x` at every point. -/
theorem hasDerivAt_Slope (s : BeamSegment) (EI x : ℝ) :
    HasDerivAt (fun y => s.Slope y EI)
      (1 / EI * (s.M1 + s.V1 / 2 * (2 * x) - (s.w2 - s.w1) / (24 * s.L) * (4 * x ^ 3) -
        s.w1 / 6 * (3 * x ^ 2))) x := by
  have h1 : HasDerivAt (fun y : ℝ => s.M1 * y) s.M1 x := by
    simpa using (hasDerivAt_id x).const_mul s.M1
  have h2 : HasDerivAt (fun y : ℝ => s.V1 / 2 * y ^ 2) (s.V1 / 2 * (2 * x)) x := by
    simpa using (hasDerivAt_pow 2 x).const_mul (s.V1 / 2)
  have h3 : HasDerivAt (fun y : ℝ => (s.w2 - s.w1) / (24 * s.L) * y ^ 4)
      ((s.w2 - s.w1) / (24 * s.L) * (4 * x ^ 3)) x := by
    simpa using (hasDerivAt_pow 4 x).const_mul ((s.w2 - s.w1) / (24 * s.L))
  have h4 : HasDerivAt (fun y : ℝ => s.w1 / 6 * y ^ 3) (s.w1 / 6 * (3 * x ^ 2)) x := by
    simpa using (hasDerivAt_pow 3 x).const_mul (s.w1 / 6)
  have h5 := (((h1.add h2).sub h3).sub h4).const_mul (1 / EI)
  have h6 := (hasDerivAt_const x s.theta1).add h5
  convert h6 using 1
  ring

/-- Derivative of `Deflection` in `x` at every point. -/
theorem hasDerivAt_Deflection (s : BeamSegment) (EI x : ℝ) :
    HasDerivAt (fun y => s.Deflection y EI)
      (s.theta1 + 1 / EI * (s.M1 / 2 * (2 * x) + s.V1 / 6 * (3 * x ^ 2) -
        (s.w2 - s.w1) / (120 * s.L) * (5 * x ^ 4) - s.w1 / 24 * (4 * x ^ 3))) x := by
  have h0 : HasDerivAt (fun y : ℝ => s.theta1 * y) s.theta1 x := by
    simpa using (hasDerivAt_id x).const_mul s.theta1
  have h1 : HasDerivAt (fun y : ℝ => s.M1 / 2 * y ^ 2) (s.M1 / 2 * (2 * x)) x := by
    simpa using (hasDerivAt_pow 2 x).const_mul (s.M1 / 2)
  have h2 : HasDerivAt (fun y : ℝ => s.V1 / 6 * y ^ 3) (s.V1 / 6 * (3 * x ^ 2)) x := by
    simpa using (hasDerivAt_pow 3 x).const_mul (s.V1 / 6)
  have h3 : HasDerivAt (fun y : ℝ => (s.w2 - s.w1) / (120 * s.L) * y ^ 5)
      ((s.w2 - s.w1) / (120 * s.L) * (5 * x ^ 4)) x := by
    simpa using (hasDerivAt_pow 5 x).const_mul ((s.w2 - s.w1) / (120 * s.L))
  have h4 : HasDerivAt (fun y : ℝ => s.w1 / 24 * y ^ 4) (s.w1 / 24 * (4 * x ^ 3)) x := by
    simpa using (hasDerivAt_pow 4 x).const_mul (s.w1 / 24)
  have h5 := (((h1.add h2).sub h3).sub h4).const_mul (1 / EI)
  have h6 := ((hasDerivAt_const x s.delta1).add h0).add h5
  convert h6 using 1
  ring

/-- C3: with the stored length field equal to `L = x2 - x1 > 0` and `EI ≠ 0`,
the successive-integration relations hold exactly: the derivative of
`Moment` is `Shear`, of `Shear` is `-(w1 + (w2-w1)*x/L)`, of `Axial` is
`p1 + (p2-p1)*x/L`, of `Slope` is `Moment/EI`, and of `Deflection` is
`Slope`. -/
theorem C3_derivative_relations (s : BeamSegment) (hL : s.L = s.x2 - s.x1)
    (hpos : 0 < s.x2 - s.x1) :
    (∀ x : ℝ, deriv (s.Moment) x = s.Shear x) ∧
    (∀ x : ℝ, deriv (s.Shear) x = -(s.w1 + (s.w2 - s.w1) * x / (s.x2 - s.x1))) ∧
    (∀ x : ℝ, deriv (s.Axial) x = s.p1 + (s.p2 - s.p1) * x / (s.x2 - s.x1)) ∧
    (∀ EI : ℝ, EI ≠ 0 → ∀ x : ℝ,
      deriv (fun y => s.Slope y EI) x = s.Moment x / EI) ∧
    (∀ EI : ℝ, EI ≠ 0 → ∀ x : ℝ,
      deriv (fun y => s.Deflection y EI) x = s.Slope x EI) := by
  have hLne : s.x2 - s.x1 ≠ 0 := ne_of_gt hpos
  refine ⟨?_, ?_, ?_, ?_, ?_⟩
  · intro x
    rw [(hasDerivAt_Moment s x).deriv, BeamSegment.Shear, hL]
    field_simp
    ring
  · intro x
    rw [(hasDerivAt_Shear s x).deriv, hL]
    field_simp
    ring
  · intro x
    rw [(hasDerivAt_Axial s x).deriv, hL]
    field_simp
    ring
  · intro EI hEI x
    rw [(hasDerivAt_Slope s EI x).deriv, BeamSegment.Moment, hL]
    field_simp
    ring
  · intro EI hEI x
    rw [(hasDerivAt_Deflection s EI x).deriv, BeamSegment.Slope, hL]
    field_simp
    ring

/-- Witness for C3 at a concrete segment. -/
theorem C3_derivative_relations_witness :
    let s : BeamSegment :=
      { x1 := 0, x2 := 2, w1 := 1, w2 := 3, p1 := 1, p2 := 2, V1 := 5, M1 := 7,
        P1 := 1, theta1 := 1, delta1 := 1, EI := 1, L := 2 }
    (∀ x : ℝ, deriv (s.Moment) x = s.Shear x) ∧
    (∀ x : ℝ, deriv (s.Shear) x = -(s.w1 + (s.w2 - s.w1) * x / (s.x2 - s.x1))) ∧
    (∀ x : ℝ, deriv (s.Axial) x = s.p1 + (s.p2 - s.p1) * x / (s.x2 - s.x1)) ∧
    (∀ EI : ℝ, EI ≠ 0 → ∀ x : ℝ,
      deriv (fun y => s.Slope y EI) x = s.Moment x / EI) ∧
    (∀ EI : ℝ, EI ≠ 0 → ∀ x : ℝ,
      deriv (fun y => s.Deflection y EI) x = s.Slope x EI) :=
  C3_derivative_relations
    { x1 := 0, x2 := 2, w1 := 1, w2 := 3, p1 := 1, p2 := 2, V1 := 5, M1 := 7,
      P1 := 1, theta1 := 1, delta1 := 1, EI := 1, L := 2 }
    (by norm_num) (by norm_num)

/-! ### Maximum of a differentiable function on a closed interval via
endpoints and critical points. -/

/-- On `[0, L]` a differentiable function is bounded by any `M` that bounds
its values at the endpoints and at every interior critical point. -/
theorem le_of_endpoints_and_crit {f g : ℝ → ℝ} (hf : ∀ t, HasDerivAt f (g t) t)
    {L M : ℝ} (hL : 0 < L) (h0 : f 0 ≤ M) (hLe : f L ≤ M)
    (hcrit : ∀ t, 0 < t → t < L → g t = 0 → f t ≤ M) :
    ∀ x, 0 ≤ x → x ≤ L → f x ≤ M := by
  have hcont : ContinuousOn f (Icc 0 L) := fun t _ =>
    ((hf t).continuousAt).continuousWithinAt
  obtain ⟨t, htmem, htmax⟩ :=
    isCompact_Icc.exists_isMaxOn (nonempty_Icc.mpr hL.le) hcont
  intro x hx0 hxL
  have hxt : f x ≤ f t := htmax ⟨hx0, hxL⟩
  have hft : f t ≤ M := by
    rcases htmem.1.lt_or_eq with h1 | h1
    · rcases htmem.2.lt_or_eq with h2 | h2
      · have hloc : IsLocalMax f t := htmax.isLocalMax (Icc_mem_nhds h1 h2)
        have hd : g t = 0 := by rw [← (hf t).deriv]; exact hloc.deriv_eq_zero
        exact hcrit t h1 h2 hd
      · rw [h2]; exact hLe
    · rw [← h1]; exact h0
  exact hxt.trans hft

/-- Dually, a lower bound through the endpoints and the interior critical
points. -/
theorem ge_of_endpoints_and_crit {f g : ℝ → ℝ} (hf : ∀ t, HasDerivAt f (g t) t)
    {L M : ℝ} (hL : 0 < L) (h0 : M ≤ f 0) (hLe : M ≤ f L)
    (hcrit : ∀ t, 0 < t → t < L → g t = 0 → M ≤ f t) :
    ∀ x, 0 ≤ x → x ≤ L → M ≤ f x := by
  have hcont : ContinuousOn f (Icc 0 L) := fun t _ =>
    ((hf t).continuousAt).continuousWithinAt
  obtain ⟨t, htmem, htmin⟩ :=
    isCompact_Icc.exists_isMinOn (nonempty_Icc.mpr hL.le) hcont
  intro x hx0 hxL
  have hxt : f t ≤ f x := htmin ⟨hx0, hxL⟩
  have hft : M ≤ f t := by
    rcases htmem.1.lt_or_eq with h1 | h1
    · rcases htmem.2.lt_or_eq with h2 | h2
      · have hloc : IsLocalMin f t := htmin.isLocalMin (Icc_mem_nhds h1 h2)
        have hd : g t = 0 := by rw [← (hf t).deriv]; exact hloc.deriv_eq_zero
        exact hcrit t h1 h2 hd
      · rw [h2]; exact hLe
    · rw [← h1]; exact h0
  exact hft.trans hxt

/-! ### Interior critical points land in the candidate sets. -/

/-- A critical point of `Shear` strictly inside the segment has the same
shear value as one of the evaluated candidates. -/
theorem shear_crit_cases (s : BeamSegment) (hL : s.L = s.x2 - s.x1)
    (hpos : 0 < s.x2 - s.x1) {t : ℝ} (ht0 : 0 < t) (htL : t < s.x2 - s.x1)
    (hg : -((s.w2 - s.w1) / (2 * s.L)) * (2 * t) - s.w1 = 0) :
    s.Shear t = s.Shear (clamp0 (s.x2 - s.x1) (BeamSegment.shearCand s)) ∨
      s.Shear t = s.Shear 0 := by
  have hLne : s.x2 - s.x1 ≠ 0 := ne_of_gt hpos
  rw [hL] at hg
  by_cases hw : s.w1 - s.w2 = 0
  · right
    have hw2 : s.w2 = s.w1 := (sub_eq_zero.mp hw).symm
    have hw1 : s.w1 = 0 := by
      rw [hw2] at hg
      simpa using hg
    simp [BeamSegment.Shear, hw2, hw1]
  · left
    have ht : t = s.w1 * (s.x2 - s.x1) / (s.w1 - s.w2) := by
      rw [eq_div_iff hw]
      field_simp at hg
      linarith [hg]
    have hcand : BeamSegment.shearCand s = t := by
      rw [BeamSegment.shearCand, if_neg hw, ← ht]
    rw [hcand, clamp0, if_neg]
    push_neg
    exact ⟨ht0.le, htL.le⟩

/-- A critical point of `Axial` strictly inside the segment has the same
axial value as one of the evaluated candidates. -/
theorem axial_crit_cases (s : BeamSegment) (hL : s.L = s.x2 - s.x1)
    (hpos : 0 < s.x2 - s.x1) {t : ℝ} (ht0 : 0 < t) (htL : t < s.x2 - s.x1)
    (hg : (s.p2 - s.p1) / (2 * s.L) * (2 * t) + s.p1 = 0) :
    s.Axial t = s.Axial (clamp0 (s.x2 - s.x1) (BeamSegment.axialCand s)) ∨
      s.Axial t = s.Axial 0 := by
  have hLne : s.x2 - s.x1 ≠ 0 := ne_of_gt hpos
  rw [hL] at hg
  by_cases hp : s.p1 - s.p2 = 0
  · right
    have hp2 : s.p2 = s.p1 := (sub_eq_zero.mp hp).symm
    have hp1 : s.p1 = 0 := by
      rw [hp2] at hg
      simpa using hg
    simp [BeamSegment.Axial, hp2, hp1]
  · left
    have ht : t = (s.x2 - s.x1) * s.p1 / (s.p1 - s.p2) := by
      rw [eq_div_iff hp]
      field_simp at hg
      linarith [hg]
    have hcand : BeamSegment.axialCand s = t := by
      rw [BeamSegment.axialCand, if_pos hp, ← ht]
    rw [hcand, clamp0, if_neg]
    push_neg
    exact ⟨ht0.le, htL.le⟩

/-- Any real root of `a*x^2 + b*x + c` is one of the two candidates the
source computes, unless the quadratic is identically zero. -/
theorem quad_root_in_codeQuadCands {a b c t : ℝ} (hq : a * t ^ 2 + b * t + c = 0) :
    t = (codeQuadCands a b c).1 ∨ t = (codeQuadCands a b c).2 ∨
      (a = 0 ∧ b = 0 ∧ c = 0) := by
  by_cases ha : a = 0
  · by_cases hb : b = 0
    · right; right
      exact ⟨ha, hb, by simpa [ha, hb] using hq⟩
    · left
      have hq' : b * t + c = 0 := by simpa [ha] using hq
      simp only [codeQuadCands, if_pos ha, hb, if_true, ne_eq, not_false_iff]
      rw [eq_div_iff hb]
      linarith
  · have hdisc : b ^ 2 - 4 * a * c = (2 * a * t + b) ^ 2 := by
      linear_combination (-4 * a) * hq
    have hnneg : ¬(b ^ 2 - 4 * a * c < 0) := by
      rw [hdisc]; exact not_lt.mpr (sq_nonneg _)
    have hsqrt : Real.sqrt (b ^ 2 - 4 * a * c) = |2 * a * t + b| := by
      rw [hdisc, Real.sqrt_sq_eq_abs]
    rcases abs_cases (2 * a * t + b) with ⟨habs, hsign⟩ | ⟨habs, hsign⟩
    · left
      simp only [codeQuadCands, ha, if_false, hnneg]
      rw [hsqrt, habs]
      field_simp
    · right; left
      simp only [codeQuadCands, ha, if_false, hnneg]
      rw [hsqrt, habs]
      field_simp

/-- A critical point of `Moment` strictly inside the segment has the same
moment value as one of the evaluated candidates. -/
theorem moment_crit_cases (s : BeamSegment) (hL : s.L = s.x2 - s.x1)
    (hpos : 0 < s.x2 - s.x1) {t : ℝ} (ht0 : 0 < t) (htL : t < s.x2 - s.x1)
    (hg : s.V1 - (s.w2 - s.w1) / (6 * s.L) * (3 * t ^ 2) - s.w1 * (2 * t) / 2 = 0) :
    s.Moment t = s.Moment (clamp0 (s.x2 - s.x1) (BeamSegment.momentCands s).1) ∨
    s.Moment t = s.Moment (clamp0 (s.x2 - s.x1) (BeamSegment.momentCands s).2) ∨
    s.Moment t = s.Moment 0 := by
  have hLne : s.x2 - s.x1 ≠ 0 := ne_of_gt hpos
  rw [hL] at hg
  have hq : (s.w1 - s.w2) / (2 * (s.x2 - s.x1)) * t ^ 2 + -s.w1 * t + s.V1 = 0 := by
    have heq : (s.w1 - s.w2) / (2 * (s.x2 - s.x1)) * t ^ 2 + -s.w1 * t + s.V1
        = s.V1 - (s.w2 - s.w1) / (6 * (s.x2 - s.x1)) * (3 * t ^ 2) -
          s.w1 * (2 * t) / 2 := by
      field_simp
      ring
    rw [heq]; exact hg
  rcases quad_root_in_codeQuadCands hq with h | h | ⟨hA, hB, hC⟩
  · left
    have hcl : clamp0 (s.x2 - s.x1) (BeamSegment.momentCands s).1 = t := by
      rw [BeamSegment.momentCands, ← h, clamp0, if_neg]
      push_neg
      exact ⟨ht0.le, htL.le⟩
    rw [hcl]
  · right; left
    have hcl : clamp0 (s.x2 - s.x1) (BeamSegment.momentCands s).2 = t := by
      rw [BeamSegment.momentCands, ← h, clamp0, if_neg]
      push_neg
      exact ⟨ht0.le, htL.le⟩
    rw [hcl]
  · right; right
    have hw1 : s.w1 = 0 := by
      have := hB
      simpa using this
    have hw12 : s.w1 - s.w2 = 0 := by
      rcases div_eq_zero_iff.mp hA with h' | h'
      · exact h'
      · exact absurd h' (by simp [hLne])
    have hw2 : s.w2 = 0 := by linarith
    simp [BeamSegment.Moment, hw1, hw2, hC]

/-- Envelope bounds for `Shear` over the segment. -/
theorem shear_bounds (s : BeamSegment) (hL : s.L = s.x2 - s.x1)
    (hpos : 0 < s.x2 - s.x1) :
    ∀ x, 0 ≤ x → x ≤ s.x2 - s.x1 →
      s.MinShear ≤ s.Shear x ∧ s.Shear x ≤ s.MaxShear := by
  intro x hx0 hxL
  constructor
  · refine ge_of_endpoints_and_crit (hasDerivAt_Shear s) hpos ?_ ?_ ?_ x hx0 hxL
    · exact (min_le_right _ _).trans (min_le_left _ _)
    · exact (min_le_right _ _).trans (min_le_right _ _)
    · intro t ht0 htL hgt
      rcases shear_crit_cases s hL hpos ht0 htL hgt with h | h
      · rw [h]; exact min_le_left _ _
      · rw [h]; exact (min_le_right _ _).trans (min_le_left _ _)
  · refine le_of_endpoints_and_crit (hasDerivAt_Shear s) hpos ?_ ?_ ?_ x hx0 hxL
    · exact (le_max_left _ _).trans (le_max_right _ _)
    · exact (le_max_right _ _).trans (le_max_right _ _)
    · intro t ht0 htL hgt
      rcases shear_crit_cases s hL hpos ht0 htL hgt with h | h
      · rw [h]; exact le_max_left _ _
      · rw [h]; exact (le_max_left _ _).trans (le_max_right _ _)

/-- Envelope bounds for `Axial` over the segment. -/
theorem axial_bounds (s : BeamSegment) (hL : s.L = s.x2 - s.x1)
    (hpos : 0 < s.x2 - s.x1) :
    ∀ x, 0 ≤ x → x ≤ s.x2 - s.x1 →
      s.MinAxial ≤ s.Axial x ∧ s.Axial x ≤ s.MaxAxial := by
  intro x hx0 hxL
  constructor
  · refine ge_of_endpoints_and_crit (hasDerivAt_Axial s) hpos ?_ ?_ ?_ x hx0 hxL
    · exact (min_le_right _ _).trans (min_le_left _ _)
    · exact (min_le_right _ _).trans (min_le_right _ _)
    · intro t ht0 htL hgt
      rcases axial_crit_cases s hL hpos ht0 htL hgt with h | h
      · rw [h]; exact min_le_left _ _
      · rw [h]; exact (min_le_right _ _).trans (min_le_left _ _)
  · refine le_of_endpoints_and_crit (hasDerivAt_Axial s) hpos ?_ ?_ ?_ x hx0 hxL
    · exact (le_max_left _ _).trans (le_max_right _ _)
    · exact (le_max_right _ _).trans (le_max_right _ _)
    · intro t ht0 htL hgt
      rcases axial_crit_cases s hL hpos ht0 htL hgt with h | h
      · rw [h]; exact le_max_left _ _
      · rw [h]; exact (le_max_left _ _).trans (le_max_right _ _)

/-- Envelope bounds for `Moment` over the segment. -/
theorem moment_bounds (s : BeamSegment) (hL : s.L = s.x2 - s.x1)
    (hpos : 0 < s.x2 - s.x1) :
    ∀ x, 0 ≤ x → x ≤ s.x2 - s.x1 →
      s.MinMoment ≤ s.Moment x ∧ s.Moment x ≤ s.MaxMoment := by
  intro x hx0 hxL
  constructor
  · refine ge_of_endpoints_and_crit (hasDerivAt_Moment s) hpos ?_ ?_ ?_ x hx0 hxL
    · exact (min_le_right _ _).trans (min_le_left _ _)
    · exact (min_le_right _ _).trans (min_le_right _ _)
    · intro t ht0 htL hgt
      rcases moment_crit_cases s hL hpos ht0 htL hgt with h | h | h
      · rw [h]; exact (min_le_left _ _).trans (min_le_left _ _)
      · rw [h]; exact (min_le_left _ _).trans (min_le_right _ _)
      · rw [h]; exact (min_le_right _ _).trans (min_le_left _ _)
  · refine le_of_endpoints_and_crit (hasDerivAt_Moment s) hpos ?_ ?_ ?_ x hx0 hxL
    · exact (le_max_left _ _).trans (le_max_right _ _)
    · exact (le_max_right _ _).trans (le_max_right _ _)
    · intro t ht0 htL hgt
      rcases moment_crit_cases s hL hpos ht0 htL hgt with h | h | h
      · rw [h]; exact (le_max_left _ _).trans (le_max_left _ _)
      · rw [h]; exact (le_max_right _ _).trans (le_max_left _ _)
      · rw [h]; exact (le_max_left _ _).trans (le_max_right _ _)

/-- A max of three reals is one of them. -/
theorem max3_eq_or (a b c : ℝ) :
    max a (max b c) = a ∨ max a (max b c) = b ∨ max a (max b c) = c := by
  rcases max_choice a (max b c) with h | h
  · exact Or.inl h
  · rcases max_choice b c with h2 | h2
    · exact Or.inr (Or.inl (h.trans h2))
    · exact Or.inr (Or.inr (h.trans h2))

/-- A min of three reals is one of them. -/
theorem min3_eq_or (a b c : ℝ) :
    min a (min b c) = a ∨ min a (min b c) = b ∨ min a (min b c) = c := by
  rcases min_choice a (min b c) with h | h
  · exact Or.inl h
  · rcases min_choice b c with h2 | h2
    · exact Or.inr (Or.inl (h.trans h2))
    · exact Or.inr (Or.inr (h.trans h2))

/-- A max of four reals is one of them. -/
theorem max4_eq_or (a b c d : ℝ) :
    max (max a b) (max c d) = a ∨ max (max a b) (max c d) = b ∨
    max (max a b) (max c d) = c ∨ max (max a b) (max c d) = d := by
  rcases max_choice (max a b) (max c d) with h | h
  · rcases max_choice a b with h2 | h2
    · exact Or.inl (h.trans h2)
    · exact Or.inr (Or.inl (h.trans h2))
  · rcases max_choice c d with h2 | h2
    · exact Or.inr (Or.inr (Or.inl (h.trans h2)))
    · exact Or.inr (Or.inr (Or.inr (h.trans h2)))

/-- A min of four reals is one of them. -/
theorem min4_eq_or (a b c d : ℝ) :
    min (min a b) (min c d) = a ∨ min (min a b) (min c d) = b ∨
    min (min a b) (min c d) = c ∨ min (min a b) (min c d) = d := by
  rcases min_choice (min a b) (min c d) with h | h
  · rcases min_choice a b with h2 | h2
    · exact Or.inl (h.trans h2)
    · exact Or.inr (Or.inl (h.trans h2))
  · rcases min_choice c d with h2 | h2
    · exact Or.inr (Or.inr (Or.inl (h.trans h2)))
    · exact Or.inr (Or.inr (Or.inr (h.trans h2)))

/-- The clamped candidate lies in `[0, L]`. -/
theorem clamp0_mem {L : ℝ} (hL : 0 ≤ L) (t : ℝ) : clamp0 L t ∈ Icc 0 L := by
  rw [clamp0]
  split_ifs with h
  · exact ⟨le_rfl, hL⟩
  · push_neg at h
    exact ⟨h.1, h.2⟩

/-- C1: with the stored length field equal to `L = x2 - x1 > 0`, the six
extremum queries bound the true envelope exactly over `[0, L]`: each value
of `Shear`, `Moment`, `Axial` lies between the reported min and max, and
every reported extremum is attained at a point of `[0, L]` (the candidate
set of endpoints plus clamped stationary points never misses a true
extremum). -/
theorem C1_extrema_envelope (s : BeamSegment) (hL : s.L = s.x2 - s.x1)
    (hpos : 0 < s.x2 - s.x1) :
    (∀ x ∈ Icc (0 : ℝ) (s.x2 - s.x1),
        (s.MinShear ≤ s.Shear x ∧ s.Shear x ≤ s.MaxShear) ∧
        (s.MinMoment ≤ s.Moment x ∧ s.Moment x ≤ s.MaxMoment) ∧
        (s.MinAxial ≤ s.Axial x ∧ s.Axial x ≤ s.MaxAxial)) ∧
    (∃ x ∈ Icc (0 : ℝ) (s.x2 - s.x1), s.Shear x = s.MaxShear) ∧
    (∃ x ∈ Icc (0 : ℝ) (s.x2 - s.x1), s.Shear x = s.MinShear) ∧
    (∃ x ∈ Icc (0 : ℝ) (s.x2 - s.x1), s.Moment x = s.MaxMoment) ∧
    (∃ x ∈ Icc (0 : ℝ) (s.x2 - s.x1), s.Moment x = s.MinMoment) ∧
    (∃ x ∈ Icc (0 : ℝ) (s.x2 - s.x1), s.Axial x = s.MaxAxial) ∧
    (∃ x ∈ Icc (0 : ℝ) (s.x2 - s.x1), s.Axial x = s.MinAxial) := by
  have hmem0 : (0 : ℝ) ∈ Icc (0 : ℝ) (s.x2 - s.x1) := ⟨le_rfl, hpos.le⟩
  have hmemL : s.x2 - s.x1 ∈ Icc (0 : ℝ) (s.x2 - s.x1) := ⟨hpos.le, le_rfl⟩
  have hmemc : ∀ t : ℝ, clamp0 (s.x2 - s.x1) t ∈ Icc (0 : ℝ) (s.x2 - s.x1) :=
    clamp0_mem hpos.le
  refine ⟨?_, ?_, ?_, ?_, ?_, ?_, ?_⟩
  · intro x hx
    exact ⟨shear_bounds s hL hpos x hx.1 hx.2, moment_bounds s hL hpos x hx.1 hx.2,
      axial_bounds s hL hpos x hx.1 hx.2⟩
  · rcases max3_eq_or (s.Shear (clamp0 (s.x2 - s.x1) (BeamSegment.shearCand s)))
        (s.Shear 0) (s.Shear (s.x2 - s.x1)) with h | h | h
    · exact ⟨clamp0 (s.x2 - s.x1) (BeamSegment.shearCand s), hmemc _, h.symm⟩
    · exact ⟨0, hmem0, h.symm⟩
    · exact ⟨s.x2 - s.x1, hmemL, h.symm⟩
  · rcases min3_eq_or (s.Shear (clamp0 (s.x2 - s.x1) (BeamSegment.shearCand s)))
        (s.Shear 0) (s.Shear (s.x2 - s.x1)) with h | h | h
    · exact ⟨clamp0 (s.x2 - s.x1) (BeamSegment.shearCand s), hmemc _, h.symm⟩
    · exact ⟨0, hmem0, h.symm⟩
    · exact ⟨s.x2 - s.x1, hmemL, h.symm⟩
  · rcases max4_eq_or (s.Moment (clamp0 (s.x2 - s.x1) (BeamSegment.momentCands s).1))
        (s.Moment (clamp0 (s.x2 - s.x1) (BeamSegment.momentCands s).2))
        (s.Moment 0) (s.Moment (s.x2 - s.x1)) with h | h | h | h
    · exact ⟨clamp0 (s.x2 - s.x1) (BeamSegment.momentCands s).1, hmemc _, h.symm⟩
    · exact ⟨clamp0 (s.x2 - s.x1) (BeamSegment.momentCands s).2, hmemc _, h.symm⟩
    · exact ⟨0, hmem0, h.symm⟩
    · exact ⟨s.x2 - s.x1, hmemL, h.symm⟩
  · rcases min4_eq_or (s.Moment (clamp0 (s.x2 - s.x1) (BeamSegment.momentCands s).1))
        (s.Moment (clamp0 (s.x2 - s.x1) (BeamSegment.momentCands s).2))
        (s.Moment 0) (s.Moment (s.x2 - s.x1)) with h | h | h | h
    · exact ⟨clamp0 (s.x2 - s.x1) (BeamSegment.momentCands s).1, hmemc _, h.symm⟩
    · exact ⟨clamp0 (s.x2 - s.x1) (BeamSegment.momentCands s).2, hmemc _, h.symm⟩
    · exact ⟨0, hmem0, h.symm⟩
    · exact ⟨s.x2 - s.x1, hmemL, h.symm⟩
  · rcases max3_eq_or (s.Axial (clamp0 (s.x2 - s.x1) (BeamSegment.axialCand s)))
        (s.Axial 0) (s.Axial (s.x2 - s.x1)) with h | h | h
    · exact ⟨clamp0 (s.x2 - s.x1) (BeamSegment.axialCand s), hmemc _, h.symm⟩
    · exact ⟨0, hmem0, h.symm⟩
    · exact ⟨s.x2 - s.x1, hmemL, h.symm⟩
  · rcases min3_eq_or (s.Axial (clamp0 (s.x2 - s.x1) (BeamSegment.axialCand s)))
        (s.Axial 0) (s.Axial (s.x2 - s.x1)) with h | h | h
    · exact ⟨clamp0 (s.x2 - s.x1) (BeamSegment.axialCand s), hmemc _, h.symm⟩
    · exact ⟨0, hmem0, h.symm⟩
    · exact ⟨s.x2 - s.x1, hmemL, h.symm⟩

/-- Witness for C1 at a concrete segment. -/
theorem C1_extrema_envelope_witness :
    let s : BeamSegment :=
      { x1 := 0, x2 := 4, w1 := 2, w2 := 8, p1 := 1, p2 := 3, V1 := 0, M1 := 0,
        P1 := 0, theta1 := 0, delta1 := 0, EI := 1, L := 4 }
    (∀ x ∈ Icc (0 : ℝ) (s.x2 - s.x1),
        (s.MinShear ≤ s.Shear x ∧ s.Shear x ≤ s.MaxShear) ∧
        (s.MinMoment ≤ s.Moment x ∧ s.Moment x ≤ s.MaxMoment) ∧
        (s.MinAxial ≤ s.Axial x ∧ s.Axial x ≤ s.MaxAxial)) ∧
    (∃ x ∈ Icc (0 : ℝ) (s.x2 - s.x1), s.Shear x = s.MaxShear) ∧
    (∃ x ∈ Icc (0 : ℝ) (s.x2 - s.x1), s.Shear x = s.MinShear) ∧
    (∃ x ∈ Icc (0 : ℝ) (s.x2 - s.x1), s.Moment x = s.MaxMoment) ∧
    (∃ x ∈ Icc (0 : ℝ) (s.x2 - s.x1), s.Moment x = s.MinMoment) ∧
    (∃ x ∈ Icc (0 : ℝ) (s.x2 - s.x1), s.Axial x = s.MaxAxial) ∧
    (∃ x ∈ Icc (0 : ℝ) (s.x2 - s.x1), s.Axial x = s.MinAxial) :=
  C1_extrema_envelope
    { x1 := 0, x2 := 4, w1 := 2, w2 := 8, p1 := 1, p2 := 3, V1 := 0, M1 := 0,
      P1 := 0, theta1 := 0, delta1 := 0, EI := 1, L := 4 }
    (by norm_num) (by norm_num)

/-! ### Every dynamic failure point of the extremum queries is guarded. -/

/-- Source `Shear` succeeds whenever the stored length is nonzero. -/
theorem ShearChk_eq (s : BeamSegment) (hLne : s.L ≠ 0) (x : ℝ) :
    s.ShearChk x = some (s.Shear x) := by
  have h2 : (2 : ℝ) * s.L ≠ 0 := by simp [hLne]
  simp [BeamSegment.ShearChk, cdiv, h2, BeamSegment.Shear]

/-- Source `Moment` succeeds whenever the stored length is nonzero. -/
theorem MomentChk_eq (s : BeamSegment) (hLne : s.L ≠ 0) (x : ℝ) :
    s.MomentChk x = some (s.Moment x) := by
  have h6 : (6 : ℝ) * s.L ≠ 0 := by simp [hLne]
  simp [BeamSegment.MomentChk, cdiv, h6, BeamSegment.Moment]

/-- Source `Axial` succeeds whenever the stored length is nonzero. -/
theorem AxialChk_eq (s : BeamSegment) (hLne : s.L ≠ 0) (x : ℝ) :
    s.AxialChk x = some (s.Axial x) := by
  have h2 : (2 : ℝ) * s.L ≠ 0 := by simp [hLne]
  simp [BeamSegment.AxialChk, cdiv, h2, BeamSegment.Axial]

/-- The shear interior candidate never divides by zero: the division by
`w1 - w2` is guarded by the branch. -/
theorem shearCandChk_eq (s : BeamSegment) :
    BeamSegment.shearCandChk s = some (BeamSegment.shearCand s) := by
  rw [BeamSegment.shearCandChk, BeamSegment.shearCand]
  by_cases hw : s.w1 - s.w2 = 0
  · simp [hw]
  · simp [hw, cdiv]

/-- The axial interior candidate never divides by zero. -/
theorem axialCandChk_eq (s : BeamSegment) :
    BeamSegment.axialCandChk s = some (BeamSegment.axialCand s) := by
  rw [BeamSegment.axialCandChk, BeamSegment.axialCand]
  by_cases hp : s.p1 - s.p2 = 0
  · simp [hp]
  · simp [hp, cdiv]

/-- The moment candidate computation succeeds whenever the segment length is
nonzero: each division is guarded by a branch and the square root is taken
only on a nonnegative discriminant. -/
theorem momentCandsChk_eq (s : BeamSegment) (hLne : s.x2 - s.x1 ≠ 0) :
    BeamSegment.momentCandsChk s = some (BeamSegment.momentCands s) := by
  have h2 : (2 : ℝ) * (s.x2 - s.x1) ≠ 0 := by simp [hLne]
  rw [BeamSegment.momentCandsChk, BeamSegment.momentCands, codeQuadCands]
  simp only [cdiv, if_neg h2, Option.some_bind]
  by_cases ha : (s.w1 - s.w2) / (2 * (s.x2 - s.x1)) = 0
  · by_cases hb : -s.w1 = 0
    · simp [ha, hb]
    · simp [ha, hb, cdiv]
  · have h2a : 2 * ((s.w1 - s.w2) / (2 * (s.x2 - s.x1))) ≠ 0 := by simp [ha]
    by_cases hd : s.w1 ^ 2 < 4 * ((s.w1 - s.w2) / (2 * (s.x2 - s.x1))) * s.V1
    · simp [ha, hd]
    · simp [ha, hd, csqrt, cdiv, h2a]

/-- C9: with the stored length field equal to `L = x2 - x1 > 0`, all six
extremum queries are total: every division and the square root succeed, and
each checked query returns exactly the unchecked real value. -/
theorem C9_extrema_total (s : BeamSegment) (hL : s.L = s.x2 - s.x1)
    (hpos : 0 < s.x2 - s.x1) :
    s.MaxShearChk = some s.MaxShear ∧ s.MinShearChk = some s.MinShear ∧
    s.MaxMomentChk = some s.MaxMoment ∧ s.MinMomentChk = some s.MinMoment ∧
    s.MaxAxialChk = some s.MaxAxial ∧ s.MinAxialChk = some s.MinAxial := by
  have hLne : s.x2 - s.x1 ≠ 0 := ne_of_gt hpos
  have hsLne : s.L ≠ 0 := by rw [hL]; exact hLne
  refine ⟨?_, ?_, ?_, ?_, ?_, ?_⟩
  · simp [BeamSegment.MaxShearChk, shearCandChk_eq, ShearChk_eq s hsLne,
      BeamSegment.MaxShear]
  · simp [BeamSegment.MinShearChk, shearCandChk_eq, ShearChk_eq s hsLne,
      BeamSegment.MinShear]
  · simp [BeamSegment.MaxMomentChk, momentCandsChk_eq s hLne, MomentChk_eq s hsLne,
      BeamSegment.MaxMoment]
  · simp [BeamSegment.MinMomentChk, momentCandsChk_eq s hLne, MomentChk_eq s hsLne,
      BeamSegment.MinMoment]
  · simp [BeamSegment.MaxAxialChk, axialCandChk_eq, AxialChk_eq s hsLne,
      BeamSegment.MaxAxial]
  · simp [BeamSegment.MinAxialChk, axialCandChk_eq, AxialChk_eq s hsLne,
      BeamSegment.MinAxial]

/-- Witness for C9 at a concrete segment. -/
theorem C9_extrema_total_witness :
    let s : BeamSegment :=
      { x1 := 0, x2 := 4, w1 := 2, w2 := 8, p1 := 1, p2 := 3, V1 := 0, M1 := 0,
        P1 := 0, theta1 := 0, delta1 := 0, EI := 1, L := 4 }
    s.MaxShearChk = some s.MaxShear ∧ s.MinShearChk = some s.MinShear ∧
    s.MaxMomentChk = some s.MaxMoment ∧ s.MinMomentChk = some s.MinMoment ∧
    s.MaxAxialChk = some s.MaxAxial ∧ s.MinAxialChk = some s.MinAxial :=
  C9_extrema_total
    { x1 := 0, x2 := 4, w1 := 2, w2 := 8, p1 := 1, p2 := 3, V1 := 0, M1 := 0,
      P1 := 0, theta1 := 0, delta1 := 0, EI := 1, L := 4 }
    (by norm_num) (by norm_num)
